import Mathlib

/-!
Shallow embedding of the AccessVision narration pipeline
(App.tsx / geminiService.ts / ttsService.ts / CameraView.tsx), together
with proofs of its specified properties.  Strings are modelled as Lean
`String`s; JavaScript `toUpperCase` / `includes` / `replace` are embedded
as character-list functions; the speech-synthesis device is modelled as a
queue of utterances; timers are modelled as an explicit scheduler state.
-/

set_option maxRecDepth 100000

namespace AccessVision

/-- The interpretation modes (the AppMode enum in types.ts). -/
inductive AppMode
| GENERAL
| TEXT
| SOCIAL
| NAVIGATION
| SHOPPING
deriving DecidableEq

/-- Response-length tiers (the Verbosity enum in types.ts). -/
inductive Verbosity
| MINIMAL
| STANDARD
| DETAILED
deriving DecidableEq

/-- Narration priority (the two string literals used by the app). -/
inductive Priority
| urgent
| normal
deriving DecidableEq

/-- User settings (the AppSettings interface in types.ts). -/
structure AppSettings where
  verbosity : Verbosity
  speechRate : Rat
  autoNarration : Bool
  autoInterval : Nat
deriving DecidableEq

/-- A transcript entry (the AnalysisResult interface in types.ts). -/
structure AnalysisResult where
  text : String
  priority : Priority
  timestamp : Nat
deriving DecidableEq

/-- JavaScript `s.toUpperCase()`, embedded as a character-wise map. -/
def toUpperCaseStr (s : String) : String :=
  ⟨s.data.map Char.toUpper⟩

/-- JavaScript `s.toLowerCase()`, embedded as a character-wise map. -/
def toLowerCaseStr (s : String) : String :=
  ⟨s.data.map Char.toLower⟩

/-- Substring test on character lists: does the list contain `pat` as a
contiguous run?  Embeds JavaScript `String.prototype.includes`. -/
def includesL (pat : List Char) : List Char → Bool
| [] => pat.isPrefixOf []
| a :: rest => pat.isPrefixOf (a :: rest) || includesL pat rest

/-- JavaScript `s.includes(pat)` on strings. -/
def includesStr (s pat : String) : Bool :=
  includesL pat.data s.data

/-- JavaScript `s.replace(c, r)` for single-character arguments: replaces
only the first occurrence. -/
def replaceFirstChar (c r : Char) : List Char → List Char
| [] => []
| x :: xs => if x = c then r :: xs else x :: replaceFirstChar c r xs

/-- geminiService.ts line 78: the urgency scan over the analysis text,
`text.toUpperCase().includes("WARNING") || text.toUpperCase().includes("CAUTION")`. -/
def isUrgentText (text : String) : Bool :=
  includesStr (toUpperCaseStr text) "WARNING" || includesStr (toUpperCaseStr text) "CAUTION"

/-- The mode-specific task description assigned to `basePrompt` by the
switch in getPromptForMode (geminiService.ts lines 19-36). -/
def basePromptFor : AppMode → String
| AppMode.NAVIGATION => "Navigation Mode. Focus ONLY on the path ahead. Identify obstacles, clear paths, doorways, changes in elevation (stairs, curbs), and hazards. Give specific directions and distances."
| AppMode.TEXT => "Text Reader Mode. Read all visible text clearly. If it\x27s a menu, read items and prices. If it\x27s a sign, explain its purpose. If it\x27s a document, identify fields. Ignore background clutter."
| AppMode.SOCIAL => "Social Mode. Describe people, their approximate ages, facial expressions, body language, and where they are looking. Describe the social atmosphere (relaxed, busy, private conversation)."
| AppMode.SHOPPING => "Shopping Mode. Identify products, read brand names and prices if visible. Compare items if multiple are present. Mention colors and packaging details."
| AppMode.GENERAL => "General Mode. Describe the scene comprehensively but concisely. Mention the most important objects, people, and layout of the room or area. Identify immediate surroundings."

/-- The verbosity-specific length instruction chosen by getPromptForMode
(geminiService.ts lines 38-45). -/
def lengthInstructionFor : Verbosity → String
| Verbosity.MINIMAL => "Keep response under 15 words. Only critical info and hazards."
| Verbosity.STANDARD => "Keep response under 40 words. Balance detail with speed."
| Verbosity.DETAILED => "Provide a detailed description (up to 70 words)."

/-- The warning-prefix rule appended to every instruction
(geminiService.ts line 47). -/
def warningRule : String :=
  "If you see an immediate danger (car, drop-off, fire), start with \x27WARNING:\x27."

/-- geminiService.ts getPromptForMode: the final template string
`${basePrompt} ${lengthInstruction} If you see an immediate danger ...`. -/
def getPromptForMode (mode : AppMode) (verbosity : Verbosity) : String :=
  basePromptFor mode ++ " " ++ lengthInstructionFor verbosity ++ " " ++ warningRule

/-- The fixed length-budget phrase the spec attributes to each verbosity
tier; it occurs verbatim inside the corresponding length instruction. -/
def budgetPhrase : Verbosity → String
| Verbosity.MINIMAL => "under 15 words"
| Verbosity.STANDARD => "under 40 words"
| Verbosity.DETAILED => "up to 70 words"

/-- Outcome of the external generateContent call: either a transport or
service error was thrown, or a response arrived whose `.text` accessor is
possibly absent (`none` models `undefined`). -/
inductive ServiceOutcome
| failure
| success (responseText : Option String)
deriving DecidableEq

/-- Result shape of analyzeImage (geminiService.ts). -/
structure AnalyzeResult where
  text : String
  isUrgent : Bool
deriving DecidableEq

/-- geminiService.ts analyzeImage, with the external call abstracted into
the `outcome` argument.  On success, `response.text || default` is applied
(empty or absent text falls back to the default phrase); the text is then
scanned for urgency.  On any thrown error the fixed connection-error
fallback is returned with `isUrgent := false`. -/
def analyzeImage (base64Image : String) (mode : AppMode) (verbosity : Verbosity)
    (outcome : ServiceOutcome) : AnalyzeResult :=
  match outcome with
  | ServiceOutcome.failure =>
      { text := "Connection error. Please try again.", isUrgent := false }
  | ServiceOutcome.success responseText =>
      let text :=
        match responseText with
        | none => "I couldn\x27t analyze the scene."
        | some t => if t = "" then "I couldn\x27t analyze the scene." else t
      { text := text, isUrgent := isUrgentText text }

/-- App.tsx line 49: the priority assigned to a new transcript entry,
`result.isUrgent ? 'urgent' : 'normal'`. -/
def narrationPriority (isUrgent : Bool) : Priority :=
  if isUrgent then Priority.urgent else Priority.normal

/-- Spec-side predicate (§4.2 of the spec): the text `t` contains the
token `tok` at some position, the comparison being made
case-insensitively. -/
def ContainsTokenCI (tok : String) (t : String) : Prop :=
  ∃ s : List Char, s <:+: t.data ∧ s.map Char.toUpper = tok.data.map Char.toUpper

/-- A speech-synthesis voice (the fields of SpeechSynthesisVoice that
ttsService.ts reads). -/
structure Voice where
  lang : String
  localService : Bool
deriving DecidableEq

/-- A configured utterance (the fields of SpeechSynthesisUtterance that
ttsService.ts sets). -/
structure Utterance where
  text : String
  rate : Rat
  pitch : Rat
  volume : Rat
  voice : Option Voice
deriving DecidableEq

/-- The speech-synthesis device: the head of `queue` is the utterance
currently being spoken, the tail is the device-owned backlog.
`window.speechSynthesis.speaking` is `!queue.isEmpty`; `cancel()` empties
the queue; `speak(u)` appends `u` to the queue. -/
structure SpeechDevice where
  queue : List Utterance
  voices : List Voice
deriving DecidableEq

/-- ttsService.ts voice selection: prefer a local English voice, fall back
to any English voice (else the engine default, modelled by `none`). -/
def findPreferredVoice (voices : List Voice) : Option Voice :=
  match voices.find? (fun v => v.lang.startsWith "en" && v.localService) with
  | some v => some v
  | none => voices.find? (fun v => v.lang.startsWith "en")

/-- ttsService.ts `stop()`: `synthesis.cancel()`. -/
def TTSService.stop (dev : SpeechDevice) : SpeechDevice :=
  { dev with queue := [] }

/-- The utterance-configuration block of ttsService.ts `speak`: rate from
settings, pitch slightly raised for urgent priority, full volume, the
preferred voice when one is found. -/
def mkUtterance (text : String) (priority : Priority) (settings : AppSettings)
    (voices : List Voice) : Utterance :=
  { text := text
    rate := settings.speechRate
    pitch := if priority = Priority.urgent then (11 : Rat) / 10 else 1
    volume := 1
    voice := findPreferredVoice voices }

/-- ttsService.ts `speak(text, priority, settings)`: empty text returns at
once; urgent priority cancels everything; normal priority cancels only
when the device is speaking and auto-narration is on; then a configured
utterance is enqueued. -/
def TTSService.speak (dev : SpeechDevice) (text : String) (priority : Priority)
    (settings : AppSettings) : SpeechDevice :=
  if text = "" then dev
  else
    let dev1 :=
      if priority = Priority.urgent then { dev with queue := [] }
      else if !dev.queue.isEmpty && settings.autoNarration then { dev with queue := [] }
      else dev
    let utterance : Utterance := mkUtterance text priority settings dev1.voices
    { dev1 with queue := dev1.queue ++ [utterance] }

/-- The slice of App.tsx component state that the pipeline reads and
writes: camera activation, the in-flight flag (`processingRef` /
`isProcessing`), the transcript list, the error banner, and the speech
device. -/
structure PipelineState where
  isCameraActive : Bool
  processing : Bool
  transcripts : List AnalysisResult
  errorMsg : Option String
  device : SpeechDevice
deriving DecidableEq

/-- App.tsx line 53: `setTranscripts(prev => [newEntry, ...prev].slice(0, 10))`. -/
def insertTranscript (newEntry : AnalysisResult) (prev : List AnalysisResult) :
    List AnalysisResult :=
  (newEntry :: prev).take 10

/-- The body of processFrame past its guards (App.tsx lines 38-62), run to
completion: analyze the frame, build the new transcript entry, insert it,
speak it, and clear the in-flight flag in the `finally` block. -/
def runAnalysis (st : PipelineState) (img : String) (mode : AppMode)
    (settings : AppSettings) (outcome : ServiceOutcome) (now : Nat) : PipelineState :=
  let result := analyzeImage img mode settings.verbosity outcome
  let newEntry : AnalysisResult :=
    { text := result.text
      priority := narrationPriority result.isUrgent
      timestamp := now }
  { st with
    transcripts := insertTranscript newEntry st.transcripts
    device := TTSService.speak st.device result.text newEntry.priority settings
    processing := false }

/-- App.tsx processFrame: returns unchanged (no-op) when the camera is
inactive or when the in-flight flag is set and the call was
auto-triggered; returns unchanged when no frame could be captured;
otherwise runs the analysis body. -/
def processFrame (st : PipelineState) (mode : AppMode) (settings : AppSettings)
    (triggeredByAuto : Bool) (capturedFrame : Option String)
    (outcome : ServiceOutcome) (now : Nat) : PipelineState :=
  if !st.isCameraActive || (st.processing && triggeredByAuto) then st
  else
    match capturedFrame with
    | none => st
    | some img => runAnalysis st img mode settings outcome now

/-- The part of the video element state that captureFrame reads. -/
structure VideoState where
  readyState : Nat
  frameData : String
deriving DecidableEq

/-- CameraView.tsx captureFrame: null when the video element is missing or
its stream has not decoded a first frame (readyState !== 4), null when a
2d canvas context cannot be obtained, else the encoded snapshot. -/
def captureFrame (video : Option VideoState) (ctxAvailable : Bool) : Option String :=
  match video with
  | none => none
  | some v =>
      if v.readyState ≠ 4 then none
      else if ctxAvailable then some v.frameData else none

/-- A trigger scheduled by `setTimeout`: its delay and the
`triggeredByAuto` argument the delayed `processFrame` call will receive. -/
structure ScheduledTrigger where
  delayMs : Nat
  triggeredByAuto : Bool
deriving DecidableEq

/-- The JavaScript enum value of an AppMode. -/
def AppMode.jsValue : AppMode → String
| AppMode.GENERAL => "GENERAL"
| AppMode.TEXT => "TEXT"
| AppMode.SOCIAL => "SOCIAL"
| AppMode.NAVIGATION => "NAVIGATION"
| AppMode.SHOPPING => "SHOPPING"

/-- App.tsx line 68: the announcement text
`${mode.toLowerCase().replace('_', ' ')} mode selected`. -/
def modeAnnouncementText (mode : AppMode) : String :=
  (⟨replaceFirstChar (Char.ofNat 95) (Char.ofNat 32)
      (toLowerCaseStr mode.jsValue).data⟩ : String) ++ " mode selected"

/-- App.tsx handleModeSelect: announce the new mode urgently, and when
auto-narration is off and the camera is active, schedule one manual
processFrame call after 500 ms. -/
def handleModeSelect (mode : AppMode) (settings : AppSettings)
    (isCameraActive : Bool) (device : SpeechDevice) :
    SpeechDevice × List ScheduledTrigger :=
  let device := TTSService.speak device (modeAnnouncementText mode) Priority.urgent settings
  if !settings.autoNarration && isCameraActive then
    (device, [{ delayMs := 500, triggeredByAuto := false }])
  else
    (device, [])

/-- App.tsx toggleCamera: flip the activation flag and announce the new
state urgently. -/
def toggleCamera (isCameraActive : Bool) (settings : AppSettings)
    (device : SpeechDevice) : Bool × SpeechDevice :=
  let newState := !isCameraActive
  (newState,
    TTSService.speak device (if newState then "Camera started" else "Camera stopped")
      Priority.urgent settings)

/-- The timer environment of the auto-narration effect: `ref` is
`autoIntervalRef.current`, `active` is the set of live `setInterval`
timers (id paired with its period), `nextId` generates fresh timer ids. -/
structure SchedulerState where
  ref : Option Nat
  active : List (Nat × Nat)
  nextId : Nat
deriving DecidableEq

/-- `clearInterval(id)`: the timer with that id stops firing. -/
def clearIntervalTimers (timers : List (Nat × Nat)) (id : Nat) : List (Nat × Nat) :=
  timers.filter (fun t => t.1 != id)

/-- The cleanup function the auto-narration effect returns (App.tsx lines
91-95): clear the interval named by the ref, leaving the ref itself
untouched.  React runs it before every re-run of the effect. -/
def cleanupRef (s : SchedulerState) : SchedulerState :=
  match s.ref with
  | some id => { s with active := clearIntervalTimers s.active id }
  | none => s

/-- One run of the auto-narration effect (App.tsx lines 76-96) for the
dependency values it observes: the previous run's cleanup, then either
(camera active and auto on) an immediate `processFrame(true)` — reported
by the Bool — plus a fresh recurring interval stored in the ref, or else
clearing and nulling the ref. -/
def effectRun (s : SchedulerState) (isCameraActive autoNarration : Bool)
    (autoInterval : Nat) : SchedulerState × Bool :=
  let s1 := cleanupRef s
  if isCameraActive && autoNarration then
    ({ ref := some s1.nextId
       active := s1.active ++ [(s1.nextId, autoInterval)]
       nextId := s1.nextId + 1 }, true)
  else
    match s1.ref with
    | some id =>
        ({ s1 with active := clearIntervalTimers s1.active id, ref := none }, false)
    | none => (s1, false)

/-- One observation of the effect's dependencies. -/
structure SchedEvent where
  isCameraActive : Bool
  autoNarration : Bool
  autoInterval : Nat
deriving DecidableEq

/-- Initial timer environment: no ref, no live timers. -/
def initSchedulerState : SchedulerState :=
  { ref := none, active := [], nextId := 0 }

/-- The timer environment after a sequence of effect runs. -/
def runSchedEvents (evs : List SchedEvent) : SchedulerState :=
  evs.foldl
    (fun s e => (effectRun s e.isCameraActive e.autoNarration e.autoInterval).1)
    initSchedulerState

/-- Scheduler invariant: either no live timer, or exactly one live timer
whose id the ref holds. -/
def SchedInv (s : SchedulerState) : Prop :=
  s.active = [] ∨ ∃ id i, s.active = [(id, i)] ∧ s.ref = some id

/-- A concrete empty speech device, used by the closed witnesses. -/
def dev0 : SpeechDevice :=
  { queue := [], voices := [] }

/-- A concrete utterance in progress, used by the closed witnesses. -/
def uPrev : Utterance :=
  { text := "object to your left", rate := 1, pitch := 1, volume := 1, voice := none }

/-- A speech device that is currently speaking, used by the closed
witnesses. -/
def devBusy : SpeechDevice :=
  { queue := [uPrev], voices := [] }

/-- Concrete default settings (auto-narration off), used by the closed
witnesses. -/
def settings0 : AppSettings :=
  { verbosity := Verbosity.STANDARD, speechRate := 1,
    autoNarration := false, autoInterval := 4000 }

/-- Concrete settings with auto-narration on, used by the closed
witnesses. -/
def settingsAuto : AppSettings :=
  { settings0 with autoNarration := true }

/-- A concrete pipeline state with the camera on and an analysis in
flight, used by the closed witnesses. -/
def st0 : PipelineState :=
  { isCameraActive := true, processing := true, transcripts := [],
    errorMsg := none, device := dev0 }

/-! ## Helper lemmas -/

/-- `includesL` decides contiguous containment. -/
theorem includesL_iff (pat s : List Char) : includesL pat s = true ↔ pat <:+: s := by
  induction s with
  | nil =>
      simp [includesL, List.infix_nil, List.isPrefixOf_iff_prefix, List.prefix_nil]
  | cons a rest ih =>
      simp [includesL, List.infix_cons_iff, ih, List.isPrefixOf_iff_prefix]

/-- A contiguous run of a mapped list is the image of a contiguous run. -/
theorem exists_infix_map {f : Char → Char} {pat t : List Char} :
    pat <:+: t.map f ↔ ∃ s, s <:+: t ∧ s.map f = pat := by
  constructor
  · rintro ⟨u, v, huv⟩
    have h1 : t.map f = u ++ (pat ++ v) := by
      rw [← huv, List.append_assoc]
    obtain ⟨u1, rest, ht, hu1, hrest⟩ := List.map_eq_append_iff.mp h1
    obtain ⟨s, v1, hrest2, hs, hv1⟩ := List.map_eq_append_iff.mp hrest
    refine ⟨s, ⟨u1, v1, ?_⟩, hs⟩
    rw [ht, hrest2, List.append_assoc]
  · rintro ⟨s, hs, rfl⟩
    exact hs.map f

/-- Containment is preserved by appending on the right. -/
theorem isInfix_append_of_left {α : Type} {l A : List α} (h : l <:+: A)
    (B : List α) : l <:+: A ++ B := by
  obtain ⟨u, v, huv⟩ := h
  exact ⟨u, v ++ B, by rw [← huv]; simp [List.append_assoc]⟩

/-- Containment is preserved by appending on the left. -/
theorem isInfix_append_of_right {α : Type} {l B : List α} (A : List α)
    (h : l <:+: B) : l <:+: A ++ B := by
  obtain ⟨u, v, huv⟩ := h
  exact ⟨A ++ u, v, by rw [← huv]; simp [List.append_assoc]⟩

/-- The urgency scan is exactly case-insensitive containment of one of
the two tokens. -/
theorem isUrgentText_iff (t : String) :
    isUrgentText t = true ↔ (ContainsTokenCI "WARNING" t ∨ ContainsTokenCI "CAUTION" t) := by
  have hW : "WARNING".data.map Char.toUpper = "WARNING".data := by decide
  have hC : "CAUTION".data.map Char.toUpper = "CAUTION".data := by decide
  show (includesL "WARNING".data (t.data.map Char.toUpper)
      || includesL "CAUTION".data (t.data.map Char.toUpper)) = true ↔ _
  rw [Bool.or_eq_true, includesL_iff, includesL_iff, exists_infix_map, exists_infix_map]
  unfold ContainsTokenCI
  rw [hW, hC]

/-- `narrationPriority` yields `urgent` exactly on `true`. -/
theorem narrationPriority_eq_urgent (b : Bool) :
    narrationPriority b = Priority.urgent ↔ b = true := by
  cases b <;> simp [narrationPriority]

/-- No token is contained in the empty text. -/
theorem not_containsTokenCI_empty (tok : String) (h : tok.data ≠ []) :
    ¬ ContainsTokenCI tok "" := by
  rintro ⟨s, hs, hmap⟩
  have hnil : s = [] := List.infix_nil.mp hs
  subst hnil
  exact h (List.map_eq_nil_iff.mp hmap.symm)

/-! ## Claim theorems -/

/-- C2: for every analysis response text `t`, the narration priority
derived from `analyzeImage` is `urgent` exactly when `t` contains the
urgency marker token WARNING or the secondary caution token CAUTION,
compared case-insensitively at any position; otherwise it is `normal`. -/
theorem c2_urgency_priority (img : String) (mode : AppMode) (verbosity : Verbosity)
    (t : String) :
    narrationPriority
        (analyzeImage img mode verbosity (ServiceOutcome.success (some t))).isUrgent
        = Priority.urgent
      ↔ (ContainsTokenCI "WARNING" t ∨ ContainsTokenCI "CAUTION" t) := by
  have hbody : (analyzeImage img mode verbosity (ServiceOutcome.success (some t))).isUrgent
      = isUrgentText (if t = "" then "I couldn\x27t analyze the scene." else t) := rfl
  by_cases ht : t = ""
  · subst ht
    rw [hbody]
    have hdef : isUrgentText
        (if ("" : String) = "" then "I couldn\x27t analyze the scene." else "") = false := by
      decide
    rw [narrationPriority_eq_urgent, hdef]
    simp only [Bool.false_eq_true, false_iff]
    rintro (hc | hc)
    · exact not_containsTokenCI_empty "WARNING" (by decide) hc
    · exact not_containsTokenCI_empty "CAUTION" (by decide) hc
  · rw [hbody, if_neg ht, narrationPriority_eq_urgent, isUrgentText_iff]

/-- C6: the analyze operation never propagates a failure: it is a total
function, and every transport or service error is converted into the
fixed connection-error fallback with priority `normal`. -/
theorem c6_failure_fallback (img : String) (mode : AppMode) (verbosity : Verbosity) :
    analyzeImage img mode verbosity ServiceOutcome.failure =
        { text := "Connection error. Please try again.", isUrgent := false }
      ∧ narrationPriority
          (analyzeImage img mode verbosity ServiceOutcome.failure).isUrgent
          = Priority.normal :=
  ⟨rfl, rfl⟩

/-- C7: for all modes and verbosities the generated instruction is the
fixed composition of the mode task description, the verbosity length
instruction, and the warning-prefix rule (hence a pure deterministic
function of the pair); the length-budget phrase of the chosen verbosity
occurs in it, the warning rule is always its suffix, and the
(Navigation, Minimal) instruction is hazard-focused with the ≤15-word
budget and the WARNING: rule. -/
theorem c7_prompt_structure (m : AppMode) (v : Verbosity) :
    getPromptForMode m v
        = basePromptFor m ++ " " ++ lengthInstructionFor v ++ " " ++ warningRule
      ∧ warningRule.data <:+ (getPromptForMode m v).data
      ∧ (budgetPhrase v).data <:+: (getPromptForMode m v).data
      ∧ "hazard".data <:+: (getPromptForMode AppMode.NAVIGATION Verbosity.MINIMAL).data
      ∧ "WARNING:".data <:+: (getPromptForMode AppMode.NAVIGATION Verbosity.MINIMAL).data := by
  have hdata : ∀ (m : AppMode) (v : Verbosity), (getPromptForMode m v).data
      = ((basePromptFor m).data ++ " ".data) ++ (lengthInstructionFor v).data
          ++ (" ".data ++ warningRule.data) := by
    intro m v
    simp [getPromptForMode, String.data_append, List.append_assoc]
  refine ⟨rfl, ?_, ?_, ?_, ?_⟩
  · refine ⟨(basePromptFor m ++ " " ++ lengthInstructionFor v ++ " ").data, ?_⟩
    simp [getPromptForMode, String.data_append, List.append_assoc]
  · rw [hdata]
    have hbudget : (budgetPhrase v).data <:+: (lengthInstructionFor v).data := by
      cases v <;> decide
    exact isInfix_append_of_left (isInfix_append_of_right _ hbudget) _
  · rw [hdata]
    have hbase : "hazard".data <:+: (basePromptFor AppMode.NAVIGATION).data := by decide
    exact isInfix_append_of_left (isInfix_append_of_left (isInfix_append_of_left hbase _) _) _
  · rw [hdata]
    have hrule : "WARNING:".data <:+: warningRule.data := by decide
    exact isInfix_append_of_right _ (isInfix_append_of_right _ hrule)

/-- Speaking empty text is a no-op. -/
theorem speak_empty (dev : SpeechDevice) (p : Priority) (settings : AppSettings) :
    TTSService.speak dev "" p settings = dev := by
  simp [TTSService.speak]

/-- Urgent speech cancels everything and leaves exactly the new
utterance on the device. -/
theorem speak_urgent_queue (dev : SpeechDevice) (text : String) (settings : AppSettings)
    (h : text ≠ "") :
    ∃ u, (TTSService.speak dev text Priority.urgent settings).queue = [u]
      ∧ u.text = text := by
  refine ⟨mkUtterance text Priority.urgent settings dev.voices, ?_, rfl⟩
  simp [TTSService.speak, h]

/-- Normal speech while the device is speaking with auto-narration on
cancels and leaves exactly the new utterance. -/
theorem speak_normal_cancel (dev : SpeechDevice) (text : String) (settings : AppSettings)
    (h : text ≠ "") (hq : dev.queue ≠ []) (ha : settings.autoNarration = true) :
    ∃ u, (TTSService.speak dev text Priority.normal settings).queue = [u]
      ∧ u.text = text := by
  have hempty : dev.queue.isEmpty = false := by
    cases hd : dev.queue with
    | nil => exact absurd hd hq
    | cons x xs => rfl
  refine ⟨mkUtterance text Priority.normal settings dev.voices, ?_, rfl⟩
  simp [TTSService.speak, h, hempty, ha]

/-- Normal speech in every other case appends to the device queue
without cancelling. -/
theorem speak_normal_append (dev : SpeechDevice) (text : String) (settings : AppSettings)
    (h : text ≠ "") (hcase : dev.queue = [] ∨ settings.autoNarration = false) :
    ∃ u, (TTSService.speak dev text Priority.normal settings).queue = dev.queue ++ [u]
      ∧ u.text = text := by
  refine ⟨mkUtterance text Priority.normal settings dev.voices, ?_, rfl⟩
  rcases hcase with hq | ha
  · simp [TTSService.speak, h, hq]
  · simp [TTSService.speak, h, ha]

/-- C3: for every call `speak(text, priority, settings)`: empty text is a
no-op; urgent priority cancels all current and queued speech before
speaking the new text; normal priority while the device is speaking with
auto-narration enabled cancels and speaks the new utterance; normal
priority otherwise appends to the device queue without cancelling. -/
theorem c3_speech_arbitration (dev : SpeechDevice) (text : String) (p : Priority)
    (settings : AppSettings) :
    (text = "" → TTSService.speak dev text p settings = dev)
    ∧ (text ≠ "" → p = Priority.urgent →
        ∃ u, (TTSService.speak dev text p settings).queue = [u] ∧ u.text = text)
    ∧ (text ≠ "" → p = Priority.normal → dev.queue ≠ [] →
        settings.autoNarration = true →
        ∃ u, (TTSService.speak dev text p settings).queue = [u] ∧ u.text = text)
    ∧ (text ≠ "" → p = Priority.normal →
        (dev.queue = [] ∨ settings.autoNarration = false) →
        ∃ u, (TTSService.speak dev text p settings).queue = dev.queue ++ [u]
          ∧ u.text = text) := by
  refine ⟨?_, ?_, ?_, ?_⟩
  · intro h; subst h; exact speak_empty dev p settings
  · intro h hp; subst hp; exact speak_urgent_queue dev text settings h
  · intro h hp hq ha; subst hp; exact speak_normal_cancel dev text settings h hq ha
  · intro h hp hcase; subst hp; exact speak_normal_append dev text settings h hcase

/-- Closed witness for C3, covering all four arbitration cases at
concrete devices and settings. -/
theorem c3_witness :
    TTSService.speak dev0 "" Priority.normal settings0 = dev0
    ∧ (∃ u, (TTSService.speak devBusy "WARNING: step ahead" Priority.urgent settings0).queue
          = [u] ∧ u.text = "WARNING: step ahead")
    ∧ (∃ u, (TTSService.speak devBusy "fresh scene" Priority.normal settingsAuto).queue
          = [u] ∧ u.text = "fresh scene")
    ∧ (∃ u, (TTSService.speak devBusy "queued scene" Priority.normal settings0).queue
          = devBusy.queue ++ [u] ∧ u.text = "queued scene") :=
  ⟨(c3_speech_arbitration dev0 "" Priority.normal settings0).1 rfl,
   (c3_speech_arbitration devBusy _ _ settings0).2.1 (by decide) rfl,
   (c3_speech_arbitration devBusy _ _ settingsAuto).2.2.1 (by decide) rfl (by decide) rfl,
   (c3_speech_arbitration devBusy _ _ settings0).2.2.2 (by decide) rfl (Or.inr rfl)⟩

/-- Taking 10 of an append absorbs an inner take 10. -/
theorem take_append_take {α : Type} (A B : List α) :
    (A ++ B.take 10).take 10 = (A ++ B).take 10 := by
  rw [List.take_append_eq_append_take, List.take_append_eq_append_take, List.take_take,
    Nat.min_eq_left (by omega : 10 - A.length ≤ 10)]

/-- Folding transcript insertion over a bounded accumulator keeps the 10
most recent entries, newest first. -/
theorem foldl_insertTranscript (es : List AnalysisResult) (acc : List AnalysisResult)
    (h : acc.take 10 = acc) :
    es.foldl (fun log e => insertTranscript e log) acc = (es.reverse ++ acc).take 10 := by
  induction es generalizing acc with
  | nil => simp [h]
  | cons e rest ih =>
      simp only [List.foldl_cons]
      rw [ih (insertTranscript e acc) (by simp [insertTranscript, List.take_take])]
      simp only [insertTranscript, List.reverse_cons, List.append_assoc,
        List.singleton_append]
      exact take_append_take _ _

/-- C4: starting from an empty Transcript Log, any sequence of insertions
leaves at most 10 entries; the log equals the 10 most recent results in
newest-first order (so the 11th-oldest entry is evicted), and every
insertion places the new result at the front. -/
theorem c4_transcript_cap (entries : List AnalysisResult) :
    (entries.foldl (fun log e => insertTranscript e log) []).length ≤ 10
    ∧ entries.foldl (fun log e => insertTranscript e log) [] = entries.reverse.take 10
    ∧ ∀ (e : AnalysisResult) (log : List AnalysisResult),
        (insertTranscript e log).head? = some e := by
  have h := foldl_insertTranscript entries [] (by simp)
  rw [List.append_nil] at h
  refine ⟨?_, h, ?_⟩
  · rw [h]; exact List.length_take_le _ _
  · intro e log
    rw [insertTranscript, show (10 : Nat) = 9 + 1 from rfl, List.take_succ_cons]
    rfl

/-- C1: an auto-triggered processFrame call while the in-flight flag is
set is a no-op, while a manual trigger runs the analysis body whenever the
camera is active, regardless of the in-flight flag. -/
theorem c1_single_flight_gate (st : PipelineState) (mode : AppMode)
    (settings : AppSettings) (cap : Option String) (outcome : ServiceOutcome) (now : Nat) :
    (st.processing = true → processFrame st mode settings true cap outcome now = st)
    ∧ (st.isCameraActive = true → ∀ img,
        processFrame st mode settings false (some img) outcome now
          = runAnalysis st img mode settings outcome now) := by
  constructor
  · intro h
    simp [processFrame, h]
  · intro h img
    simp [processFrame, h]

/-- Closed witness for C1: with the camera on and an analysis in flight,
an auto trigger is a no-op while a manual trigger runs the body. -/
theorem c1_witness :
    processFrame st0 AppMode.GENERAL settings0 true none ServiceOutcome.failure 0 = st0
    ∧ processFrame st0 AppMode.GENERAL settings0 false (some "img") ServiceOutcome.failure 0
        = runAnalysis st0 "img" AppMode.GENERAL settings0 ServiceOutcome.failure 0 :=
  ⟨(c1_single_flight_gate st0 AppMode.GENERAL settings0 none ServiceOutcome.failure 0).1 rfl,
   (c1_single_flight_gate st0 AppMode.GENERAL settings0 (some "img")
      ServiceOutcome.failure 0).2 rfl "img"⟩

/-- C9: frame capture is total and returns `none` when the video element
is absent or its stream has not decoded a first frame, and a processFrame
cycle with no captured frame leaves the pipeline state untouched — no
error is recorded and the in-flight flag is not set. -/
theorem c9_no_frame_skip (video : Option VideoState) (ctxAvailable : Bool)
    (st : PipelineState) (mode : AppMode) (settings : AppSettings) (auto : Bool)
    (outcome : ServiceOutcome) (now : Nat) :
    (∀ v, video = some v → v.readyState ≠ 4 → captureFrame video ctxAvailable = none)
    ∧ captureFrame none ctxAvailable = none
    ∧ processFrame st mode settings auto none outcome now = st := by
  refine ⟨?_, rfl, ?_⟩
  · rintro v rfl hv
    simp [captureFrame, hv]
  · simp [processFrame]

/-- Closed witness for C9: a warming-up stream yields no frame, and the
cycle is skipped silently. -/
theorem c9_witness :
    captureFrame (some { readyState := 0, frameData := "f" }) true = none
    ∧ processFrame st0 AppMode.GENERAL settings0 false none ServiceOutcome.failure 0 = st0 :=
  ⟨(c9_no_frame_skip (some { readyState := 0, frameData := "f" }) true st0 AppMode.GENERAL
      settings0 false ServiceOutcome.failure 0).1 _ rfl (by decide),
   (c9_no_frame_skip (some { readyState := 0, frameData := "f" }) true st0 AppMode.GENERAL
      settings0 false ServiceOutcome.failure 0).2.2⟩

/-- C8: selecting a mode while capture is active and auto-narration is
disabled schedules exactly one manual-equivalent trigger after 500 ms;
with auto-narration enabled or capture inactive, no trigger is
scheduled. -/
theorem c8_mode_switch_trigger (mode : AppMode) (settings : AppSettings)
    (isCameraActive : Bool) (device : SpeechDevice) :
    (settings.autoNarration = false → isCameraActive = true →
      (handleModeSelect mode settings isCameraActive device).2
        = [{ delayMs := 500, triggeredByAuto := false }])
    ∧ (settings.autoNarration = true ∨ isCameraActive = false →
      (handleModeSelect mode settings isCameraActive device).2 = []) := by
  constructor
  · intro ha hc
    simp [handleModeSelect, ha, hc]
  · rintro (ha | hc)
    · simp [handleModeSelect, ha]
    · simp [handleModeSelect, hc]

/-- Closed witness for C8: a concrete mode selection schedules the 500 ms
trigger exactly when auto-narration is off and the camera is on. -/
theorem c8_witness :
    (handleModeSelect AppMode.NAVIGATION settings0 true dev0).2
        = [{ delayMs := 500, triggeredByAuto := false }]
    ∧ (handleModeSelect AppMode.NAVIGATION settingsAuto true dev0).2 = [] :=
  ⟨(c8_mode_switch_trigger AppMode.NAVIGATION settings0 true dev0).1 rfl rfl,
   (c8_mode_switch_trigger AppMode.NAVIGATION settingsAuto true dev0).2 (Or.inl rfl)⟩

/-- C10: every mode-selection announcement and every camera start/stop
announcement goes through the speech arbiter with urgent priority, so the
device ends up with exactly the announcement — all current and queued
narration is halted first. -/
theorem c10_urgent_announcements (mode : AppMode) (settings : AppSettings)
    (cam : Bool) (device : SpeechDevice) (camState : Bool) (device2 : SpeechDevice) :
    (∃ u, ((handleModeSelect mode settings cam device).1).queue = [u]
        ∧ u.text = modeAnnouncementText mode)
    ∧ (∃ u, ((toggleCamera camState settings device2).2).queue = [u]
        ∧ u.text = (if camState then "Camera stopped" else "Camera started")) := by
  constructor
  · have hne : modeAnnouncementText mode ≠ "" := by cases mode <;> decide
    have hfst : (handleModeSelect mode settings cam device).1
        = TTSService.speak device (modeAnnouncementText mode) Priority.urgent settings := by
      cases hcond : (!settings.autoNarration && cam) <;> simp [handleModeSelect, hcond]
    rw [hfst]
    exact speak_urgent_queue device _ settings hne
  · cases camState
    · simp only [toggleCamera, Bool.not_false, if_pos, if_neg]
      exact speak_urgent_queue device2 "Camera started" settings (by decide)
    · simp only [toggleCamera, Bool.not_true, if_pos, if_neg]
      exact speak_urgent_queue device2 "Camera stopped" settings (by decide)

/-- The initial timer environment satisfies the scheduler invariant. -/
theorem schedInv_init : SchedInv initSchedulerState :=
  Or.inl rfl

/-- Under the invariant, the effect cleanup leaves no live timer. -/
theorem cleanupRef_active (s : SchedulerState) (h : SchedInv s) :
    (cleanupRef s).active = [] := by
  rcases h with h | ⟨id, i, ha, hr⟩
  · rcases hs : s.ref with _ | id2
    · simp [cleanupRef, hs, h]
    · simp [cleanupRef, hs, clearIntervalTimers, h]
  · simp [cleanupRef, hr, clearIntervalTimers, ha]

/-- The cleanup does not touch the ref cell. -/
theorem cleanupRef_ref (s : SchedulerState) : (cleanupRef s).ref = s.ref := by
  rcases hs : s.ref with _ | id <;> simp [cleanupRef, hs]

/-- One effect run preserves the scheduler invariant. -/
theorem schedInv_effectRun (s : SchedulerState) (c a : Bool) (i : Nat)
    (h : SchedInv s) : SchedInv (effectRun s c a i).1 := by
  have hact := cleanupRef_active s h
  cases hca : (c && a)
  · rcases href : (cleanupRef s).ref with _ | id
    · simp only [effectRun, hca, Bool.false_eq_true, if_false, href]
      exact Or.inl hact
    · simp only [effectRun, hca, Bool.false_eq_true, if_false, href]
      exact Or.inl (by simp [clearIntervalTimers, hact])
  · simp only [effectRun, hca, if_true]
    exact Or.inr ⟨(cleanupRef s).nextId, i, by simp [hact], rfl⟩

/-- Every reachable timer environment satisfies the invariant. -/
theorem schedInv_run (evs : List SchedEvent) : SchedInv (runSchedEvents evs) := by
  suffices h : ∀ (l : List SchedEvent) (s : SchedulerState), SchedInv s →
      SchedInv (l.foldl
        (fun s e => (effectRun s e.isCameraActive e.autoNarration e.autoInterval).1) s) by
    exact h evs initSchedulerState schedInv_init
  intro l
  induction l with
  | nil => intro s hs; simpa using hs
  | cons e rest ih =>
      intro s hs
      simp only [List.foldl_cons]
      exact ih _ (schedInv_effectRun _ _ _ _ hs)

/-- Enabling auto-narration with capture active fires the immediate
trigger and installs exactly one recurring schedule at the requested
interval. -/
theorem effectRun_enable (s : SchedulerState) (h : SchedInv s) (i : Nat) :
    (effectRun s true true i).2 = true
    ∧ ∃ id, (effectRun s true true i).1.active = [(id, i)] := by
  have hact := cleanupRef_active s h
  constructor
  · simp [effectRun]
  · exact ⟨(cleanupRef s).nextId, by simp [effectRun, hact]⟩

/-- Any effect run with auto-narration off or capture inactive cancels
every pending schedule and fires no trigger. -/
theorem effectRun_disable (s : SchedulerState) (h : SchedInv s) (c a : Bool)
    (hca : (c && a) = false) (i : Nat) :
    (effectRun s c a i).1.active = [] ∧ (effectRun s c a i).2 = false := by
  have hact := cleanupRef_active s h
  rcases href : (cleanupRef s).ref with _ | id
  · simp only [effectRun, hca, Bool.false_eq_true, if_false, href]
    exact ⟨hact, trivial⟩
  · simp only [effectRun, hca, Bool.false_eq_true, if_false, href]
    exact ⟨by simp [clearIntervalTimers, hact], trivial⟩

/-- C5: in every reachable timer environment at most one recurring
schedule is live; an effect run that enables auto-narration with capture
active fires one immediate trigger and replaces everything with exactly
one schedule at the current interval; an effect run with auto-narration
off or capture inactive cancels the pending schedule and fires nothing —
so two recurring schedules never run concurrently. -/
theorem c5_single_schedule (evs : List SchedEvent) :
    (runSchedEvents evs).active.length ≤ 1
    ∧ (∀ i, (effectRun (runSchedEvents evs) true true i).2 = true
        ∧ ∃ id, (effectRun (runSchedEvents evs) true true i).1.active = [(id, i)])
    ∧ (∀ c a i, (c && a) = false →
        (effectRun (runSchedEvents evs) c a i).1.active = []
        ∧ (effectRun (runSchedEvents evs) c a i).2 = false) := by
  have hinv := schedInv_run evs
  refine ⟨?_, fun i => effectRun_enable _ hinv i,
    fun c a i hca => effectRun_disable _ hinv c a hca i⟩
  rcases hinv with h | ⟨id, i, ha, hr⟩
  · simp [h]
  · simp [ha]

/-- Closed witness for C5: after one enabling run, at most one schedule
is live, re-enabling at a new interval yields exactly one schedule at
that interval, and a disabling run cancels it. -/
theorem c5_witness :
    (runSchedEvents
        [{ isCameraActive := true, autoNarration := true, autoInterval := 4000 }]).active.length
      ≤ 1
    ∧ (∃ id, (effectRun
        (runSchedEvents
          [{ isCameraActive := true, autoNarration := true, autoInterval := 4000 }])
        true true 2000).1.active = [(id, 2000)])
    ∧ (effectRun
        (runSchedEvents
          [{ isCameraActive := true, autoNarration := true, autoInterval := 4000 }])
        true false 2000).1.active = [] :=
  ⟨(c5_single_schedule _).1,
   ((c5_single_schedule _).2.1 2000).2,
   ((c5_single_schedule _).2.2 true false 2000 rfl).1⟩

end AccessVision
